import Mathlib

/-!
Verification of the prmpt prompt-assembly CLI.

Strings are modelled as lists of characters; Go byte indexing and the
`strings` package helpers used by the source are given explicit
definitions below.  Filesystem reads (directory listings, stat, mkdir,
home lookup) are modelled by passing the observed results in as data.
-/

namespace Prmpt

/-- A Go string, modelled as its list of bytes/characters. -/
abbrev Str := List Char

/-- Go `strings.HasPrefix s pat` (does `s` start with `pat`). -/
def listStartsWith : Str → Str → Bool
  | _, [] => true
  | [], _ :: _ => false
  | c :: s, p :: ps => c == p && listStartsWith s ps

/-- Go `strings.HasSuffix s pat`. -/
def listEndsWith (s pat : Str) : Bool :=
  listStartsWith s.reverse pat.reverse

/-- Go `strings.Contains s pat`. -/
def containsSubstr : Str → Str → Bool
  | [], pat => pat.isEmpty
  | c :: rest, pat => listStartsWith (c :: rest) pat || containsSubstr rest pat

/-- Go `strings.TrimSuffix s pat`: drop `pat` from the end when present. -/
def trimSuffixL (s pat : Str) : Str :=
  if listEndsWith s pat then s.take (s.length - pat.length) else s

/-- Left-to-right scan of `strings.ReplaceAll`, driven by a fuel
bounding the number of characters still to be consumed (the fuel makes
the recursion structural; `replaceAll` below supplies enough fuel that
the zero-fuel branch is never reached). -/
def replaceAllFuel : Nat → Str → Str → Str → Str
  | 0, s, _, _ => s
  | _ + 1, [], _, _ => []
  | fuel + 1, c :: rest, pat, rep =>
    if 0 < pat.length ∧ listStartsWith (c :: rest) pat = true then
      rep ++ replaceAllFuel fuel (rest.drop (pat.length - 1)) pat rep
    else
      c :: replaceAllFuel fuel rest pat rep

/-- Go `strings.ReplaceAll s pat rep` for a non-empty pattern:
replace every non-overlapping occurrence, scanning left to right.
(The source only calls this with the non-empty pattern `".default."`.) -/
def replaceAll (s pat rep : Str) : Str :=
  replaceAllFuel s.length s pat rep

/-- Strip leading `'.'` characters. -/
def trimLeadDots : Str → Str
  | [] => []
  | c :: rest => if c = '.' then trimLeadDots rest else c :: rest

/-- Go `strings.Trim s "."`: strip leading and trailing dots. -/
def trimDots (s : Str) : Str :=
  ((trimLeadDots ((trimLeadDots s).reverse)).reverse)

/-- Strip leading whitespace characters. -/
def dropLeadWs : Str → Str
  | [] => []
  | c :: rest => if c.isWhitespace then dropLeadWs rest else c :: rest

/-- Go `strings.TrimSpace s`. -/
def trimSpace (s : Str) : Str :=
  ((dropLeadWs ((dropLeadWs s).reverse)).reverse)

/-- Case folding used for the case-insensitive template lookup. -/
def toLowerStr (s : Str) : Str := s.map Char.toLower

/-- One entry of a directory listing, as `os.ReadDir` reports it
(`os.ReadDir` returns entries sorted by filename). -/
structure DirEntry where
  name : Str
  isDir : Bool

/-- The `".md"` template-file suffix. -/
def mdExt : Str := ".md".toList

/-- The mid-stem default marker `".default."`. -/
def markerMid : Str := ".default.".toList

/-- The trailing default marker `".default"`. -/
def markerEnd : Str := ".default".toList

/-- Classification step of `findTemplates` (prompter.go lines 192-205):
`some displayName` when the stem carries a default marker, `none` for a
regular template.  A stem containing `".default."` has that marker
replaced by `"."` and stray dots trimmed; a stem merely ending in
`".default"` has the marker dropped. -/
def classifyStem (stem : Str) : Option Str :=
  if containsSubstr stem markerMid then
    some (trimDots (replaceAll stem markerMid ('.' :: [])))
  else if listEndsWith stem markerEnd then
    some (trimSuffixL stem markerEnd)
  else none

/-- The stems (names without `".md"`) of the non-directory `.md` entries,
in listing order (the filter of prompter.go lines 187-191). -/
def mdStems (entries : List DirEntry) : List Str :=
  entries.filterMap fun e =>
    if !e.isDir && listEndsWith e.name mdExt then
      some (trimSuffixL e.name mdExt)
    else none

/-- `findTemplates` (prompter.go lines 171-215) on a readable directory
whose listing is `entries`: default display names first (listing order),
then regular stems (listing order). -/
def findTemplates (entries : List DirEntry) : List Str :=
  ((mdStems entries).filterMap classifyStem)
    ++ ((mdStems entries).filter fun st => (classifyStem st).isNone)

/-- The display names of the default-marked `.md` files of a listing:
the `defaultNames` map built in `buildOptionsWithNone`
(prompter.go lines 232-250). -/
def defaultDisplayNames (entries : List DirEntry) : List Str :=
  entries.filterMap fun e =>
    if !e.isDir && listEndsWith e.name mdExt then
      classifyStem (trimSuffixL e.name mdExt)
    else none

/-- The `"None"` sentinel option. -/
def noneStr : Str := "None".toList

/-- `buildOptionsWithNone` (prompter.go lines 221-272).  `dir` is the
re-read directory listing (`none` when `os.ReadDir` fails, in which case
every template is treated as regular).  Result: default templates, then
`"None"`, then regular templates. -/
def buildOptionsWithNone (templates : List Str) (dir : Option (List DirEntry)) : List Str :=
  match dir with
  | some entries =>
    let dn := defaultDisplayNames entries
    (templates.filter fun t => dn.contains t)
      ++ noneStr :: (templates.filter fun t => !dn.contains t)
  | none => noneStr :: templates

/-- The directory listing of claim C1, in `os.ReadDir` (sorted) order. -/
def entriesC1 : List DirEntry :=
  [⟨"another.default.template.md".toList, false⟩,
   ⟨"example.default.md".toList, false⟩,
   ⟨"regular1.md".toList, false⟩,
   ⟨"regular2.md".toList, false⟩]

/-- The `"..."` ellipsis appended by truncation. -/
def ellipsisStr : Str := "...".toList

/-- `truncateString` (prompter.go lines 275-280).  `maxLen` is a Go
`int`, so it is modelled as an integer; the Go slice `s[:maxLen-3]`
panics when `maxLen - 3` is negative or exceeds `len(s)`, which is
modelled as `none`. -/
def truncateString (s : Str) (maxLen : Int) : Option Str :=
  if (s.length : Int) ≤ maxLen then
    some s
  else if 0 ≤ maxLen - 3 ∧ maxLen - 3 ≤ (s.length : Int) then
    some (s.take (maxLen - 3).toNat ++ ellipsisStr)
  else none

/-- The configuration record (`interfaces.Config`), with the fields the
configuration tests exercise; sizes are Go `int64`. -/
structure Config where
  promptsLocation : Str := []
  localPromptsLocation : Str := []
  editor : Str := []
  defaultPre : Str := []
  defaultPost : Str := []
  fixFile : Str := []
  maxFileSizeBytes : Int := 0
  maxTotalBytes : Int := 0
  allowOversize : Bool := false
  directoryStrategy : Str := []
  target : Str := []
  interactiveDefault : Bool := false

/-- Modelled from the spec: `Validate(config)` of the config `Manager`
(its implementation is not under src/, only its tests).  Per spec 4.1:
a nil config is invalid; size limits must be non-negative;
`directory_strategy` must be `git` or `filesystem`; `target` must be
`clipboard`, `stdout`, or carry a `file:` prefix (any suffix).
Returns `some errorMessage` on rejection, `none` on acceptance. -/
def Validate : Option Config → Option Str
  | none => some ("config cannot be nil".toList)
  | some c =>
    if c.maxFileSizeBytes < 0 then
      some ("max_file_size_bytes must be non-negative".toList)
    else if c.maxTotalBytes < 0 then
      some ("max_total_bytes must be non-negative".toList)
    else if ¬(c.directoryStrategy = "git".toList ∨ c.directoryStrategy = "filesystem".toList) then
      some ("invalid directory_strategy".toList)
    else if ¬(c.target = "clipboard".toList ∨ c.target = "stdout".toList
        ∨ listStartsWith c.target ("file:".toList) = true) then
      some ("invalid target".toList)
    else none

/-- The configuration keys merged by `Resolve`. -/
inductive ConfigKey where
  | promptsLocation | localPromptsLocation | editor | defaultPre
  | defaultPost | fixFile | maxFileSizeBytes | maxTotalBytes
  | allowOversize | directoryStrategy | target | interactiveDefault
deriving DecidableEq

/-- A configuration value (string, integer or boolean). -/
inductive ConfigVal where
  | s (v : Str)
  | i (v : Int)
  | b (v : Bool)
deriving DecidableEq

/-- The built-in defaults layer, as the load test observes it
(max_file_size_bytes 65536, max_total_bytes 262144,
directory_strategy "git", target "clipboard"). -/
def defaultLayer : ConfigKey → ConfigVal
  | .maxFileSizeBytes => .i 65536
  | .maxTotalBytes => .i 262144
  | .directoryStrategy => .s ("git".toList)
  | .target => .s ("clipboard".toList)
  | .allowOversize => .b false
  | .interactiveDefault => .b false
  | _ => .s []

/-- A partial layer (file values, environment values, or explicitly-set
flags): only the keys it explicitly sets carry a value. -/
def Overlay := ConfigKey → Option ConfigVal

/-- Modelled from the spec: `Resolve()` of the config `Manager` (its
implementation is not under src/, only its tests).  Per spec 4.1 it
merges four layers in ascending precedence — built-in defaults, file
values, environment variables, then explicitly-set flags — where only
keys explicitly set at a layer override lower layers. -/
def Resolve (flags env file : Overlay) : ConfigKey → ConfigVal :=
  fun k => ((flags k).getD ((env k).getD ((file k).getD (defaultLayer k))))

/-- The error categories of the orchestrator error layer: the seven
sentinel errors of errors.go, plus the fresh `"unknown error"` sentinel
that `RecoverFromError` attaches when wrapping a non-structured error. -/
inductive ErrCategory where
  | configurationInvalid | templateNotFound | templateInvalid
  | contentCollection | fixModeInvalid | outputFailed
  | validationFailed | unknownError
deriving DecidableEq

/-- The `Error()` text of each sentinel error. -/
def catText : ErrCategory → Str
  | .configurationInvalid => "configuration error".toList
  | .templateNotFound => "template not found".toList
  | .templateInvalid => "template error".toList
  | .contentCollection => "content collection error".toList
  | .fixModeInvalid => "fix mode error".toList
  | .outputFailed => "output error".toList
  | .validationFailed => "validation error".toList
  | .unknownError => "unknown error".toList

/-- A Go error value: a plain `errors.New` error, a `fmt.Errorf("..: %w")`
wrapper (whose text is the formatted text before the wrapped error's
text), or a structured `*PrompterError` with category, message, guidance
and optional cause. -/
inductive GoError where
  | basic (msg : Str)
  | wrapped (outerMsg : Str) (inner : GoError)
  | prompterE (cat : ErrCategory) (message : Str) (guidance : Str)
      (cause : Option GoError)

/-- `(*PrompterError).Error()` and the plain `Error()` methods: the
structured form is `"<category>: <message>\n\n<guidance>"`, with the
guidance block omitted when the guidance is empty. -/
def errText : GoError → Str
  | .basic m => m
  | .wrapped outer inner => outer ++ errText inner
  | .prompterE c m g _ =>
    if g.isEmpty then catText c ++ ": ".toList ++ m
    else catText c ++ ": ".toList ++ m ++ "\n\n".toList ++ g

/-- `errors.As(err, &prompterErr)`: walk the `Unwrap` chain and return
the first structured error's components.  A `*PrompterError` matches
immediately; a `fmt.Errorf` wrapper unwraps to its inner error; a plain
error ends the chain. -/
def asPrompter : GoError → Option (ErrCategory × Str × Str × Option GoError)
  | .basic _ => none
  | .wrapped _ inner => asPrompter inner
  | .prompterE c m g cs => some (c, m, g, cs)

/-- Guidance selection of `NewConfigurationError` (errors.go): matched
against the `message` argument. -/
def configErrGuidance (message : Str) : Str :=
  if containsSubstr message ("permission".toList) then
    ("Check file permissions for your configuration directory. Run \x27prompter --help\x27 for more information.").toList
  else if containsSubstr message ("not found".toList)
      || containsSubstr message ("does not exist".toList) then
    ("Configuration file not found. Run \x27prompter --help\x27 to see default locations and options.").toList
  else
    ("Run \x27prompter --help\x27 for usage information and configuration options.").toList

/-- `NewConfigurationError(message, cause)`. -/
def NewConfigurationError (message : Str) (cause : Option GoError) : GoError :=
  .prompterE .configurationInvalid message (configErrGuidance message) cause

/-- Guidance selection of `NewTemplateError`: matched against the
cause's text. -/
def templateErrGuidance (templateName : Str) (causeText : Str) : Str :=
  if containsSubstr causeText ("not found".toList) then
    ("Template \x27".toList) ++ templateName
      ++ ("\x27 not found. Run \x27prompter --help\x27 for template setup.").toList
  else if containsSubstr causeText ("parse".toList)
      || containsSubstr causeText ("syntax".toList) then
    ("Template \x27".toList) ++ templateName
      ++ ("\x27 has syntax errors. Run \x27prompter --help\x27 for template format.").toList
  else
    ("Run \x27prompter --help\x27 for template usage and configuration.").toList

/-- `NewTemplateError(templateName, cause)` (note: it tags the error
with the `ErrTemplateInvalid` sentinel). -/
def NewTemplateError (templateName : Str) (cause : GoError) : GoError :=
  .prompterE .templateInvalid
    (("failed to process template \x27".toList) ++ templateName ++ ("\x27".toList))
    (templateErrGuidance templateName (errText cause))
    (some cause)

/-- Guidance selection of `NewContentCollectionError`: matched against
the cause's text. -/
def contentErrGuidance (path : Str) (causeText : Str) : Str :=
  if containsSubstr causeText ("permission".toList) then
    ("Permission denied accessing \x27".toList) ++ path
      ++ ("\x27. Run \x27prompter --help\x27 for usage.").toList
  else if containsSubstr causeText ("not found".toList)
      || containsSubstr causeText ("does not exist".toList) then
    ("Path \x27".toList) ++ path ++ ("\x27 not found. Run \x27prompter --help\x27 for usage.").toList
  else
    ("Run \x27prompter --help\x27 for file and directory usage options.").toList

/-- `NewContentCollectionError(path, cause)`. -/
def NewContentCollectionError (path : Str) (cause : GoError) : GoError :=
  .prompterE .contentCollection
    (("failed to collect content from \x27".toList) ++ path ++ ("\x27".toList))
    (contentErrGuidance path (errText cause))
    (some cause)

/-- Guidance selection of `NewFixModeError`: matched against the
cause's text. -/
def fixModeErrGuidance (causeText : Str) : Str :=
  if containsSubstr causeText ("not found".toList)
      || containsSubstr causeText ("does not exist".toList) then
    ("Fix file not found. Run \x27prompter --help\x27 for fix mode setup.").toList
  else if containsSubstr causeText ("empty".toList) then
    ("Fix file is empty. Run \x27prompter --help\x27 for fix mode usage.").toList
  else
    ("Run \x27prompter --help\x27 for fix mode usage and examples.").toList

/-- `NewFixModeError(fixFile, cause)`. -/
def NewFixModeError (fixFile : Str) (cause : GoError) : GoError :=
  .prompterE .fixModeInvalid
    (("fix mode failed with file \x27".toList) ++ fixFile ++ ("\x27".toList))
    (fixModeErrGuidance (errText cause))
    (some cause)

/-- Guidance selection of `NewOutputError`: the first two rules match
the `target` argument (equality with `clipboard`, `file:` prefix); only
the third matches the cause's text. -/
def outputErrGuidance (target : Str) (causeText : Str) : Str :=
  if target = "clipboard".toList then
    ("Clipboard access failed. Try --target stdout or run \x27prompter --help\x27 for options.").toList
  else if listStartsWith target ("file:".toList) then
    ("File write failed. Run \x27prompter --help\x27 for output options.").toList
  else if containsSubstr causeText ("editor".toList) then
    ("Editor launch failed. Run \x27prompter --help\x27 for editor configuration.").toList
  else
    ("Run \x27prompter --help\x27 for output target options.").toList

/-- `NewOutputError(target, cause)`. -/
def NewOutputError (target : Str) (cause : GoError) : GoError :=
  .prompterE .outputFailed
    (("failed to output to target \x27".toList) ++ target ++ ("\x27".toList))
    (outputErrGuidance target (errText cause))
    (some cause)

/-- Guidance selection of `NewValidationError`: an exact switch on the
`field` argument; the cause is never consulted (and is stored as nil). -/
def validationErrGuidance (field : Str) : Str :=
  if field = "base_prompt".toList then
    ("Base prompt required in non-interactive mode. Run \x27prompter --help\x27 for options.").toList
  else if field = "target".toList then
    ("Invalid target. Run \x27prompter --help\x27 for valid output targets.").toList
  else if field = "config_path".toList then
    ("Invalid config path. Run \x27prompter --help\x27 for configuration options.").toList
  else if field = "template_name".toList then
    ("Invalid template name. Run \x27prompter --help\x27 for template usage.").toList
  else
    ("Run \x27prompter --help\x27 for usage information.").toList

/-- `NewValidationError(field, value, reason)` (`value` is rendered with
`%v`; its rendered text is taken as the argument). -/
def NewValidationError (field value reason : Str) : GoError :=
  .prompterE .validationFailed
    (("validation failed for ".toList) ++ field ++ (": ".toList) ++ value
      ++ (" (".toList) ++ reason ++ (")".toList))
    (validationErrGuidance field)
    none

/-- The guidance of a structured error (empty for plain errors). -/
def guidanceOf : GoError → Str
  | .prompterE _ _ g _ => g
  | _ => []

/-- The stored cause of a structured error. -/
def causeOf : GoError → Option GoError
  | .prompterE _ _ _ cs => cs
  | _ => none

/-- The filesystem observations `recoverFromConfigError` makes:
whether `os.UserHomeDir` succeeds, whether the config directory is
missing (`os.Stat` reports not-exist), and whether `os.MkdirAll`
succeeds. -/
structure FsEnv where
  homeDirOk : Bool
  configDirMissing : Bool
  mkdirOk : Bool

/-- The guidance rewrite of `recoverFromConfigError`: untouched unless
the home directory is known and the config directory is missing, in
which case the mkdir attempt's outcome picks the new text. -/
def configRecoveryGuidance (env : FsEnv) (g : Str) : Str :=
  if env.homeDirOk then
    if env.configDirMissing then
      if env.mkdirOk then
        ("Config directory created. Run \x27prompter --help\x27 for configuration options.").toList
      else
        ("Run \x27prompter --help\x27 for configuration help.").toList
    else g
  else g

/-- The guidance rewrite of `recoverFromTemplateError`. -/
def templateRecoveryGuidance (message g : Str) : Str :=
  if containsSubstr message ("not found".toList) then
    ("Template not found. Run \x27prompter --help\x27 for template setup or omit template flags.").toList
  else g

/-- The guidance rewrite of `recoverFromOutputError`. -/
def outputRecoveryGuidance (message g : Str) : Str :=
  if containsSubstr message ("clipboard".toList) then
    ("Clipboard failed. Try --target stdout or run \x27prompter --help\x27 for options.").toList
  else g

/-- `recoverFromConfigError` (errors.go): rewrites guidance only. -/
def recoverFromConfigError (env : FsEnv) (c : ErrCategory) (m g : Str)
    (cs : Option GoError) : GoError :=
  .prompterE c m (configRecoveryGuidance env g) cs

/-- `recoverFromTemplateError` (errors.go): rewrites guidance only. -/
def recoverFromTemplateError (c : ErrCategory) (m g : Str)
    (cs : Option GoError) : GoError :=
  .prompterE c m (templateRecoveryGuidance m g) cs

/-- `recoverFromOutputError` (errors.go): rewrites guidance only. -/
def recoverFromOutputError (c : ErrCategory) (m g : Str)
    (cs : Option GoError) : GoError :=
  .prompterE c m (outputRecoveryGuidance m g) cs

/-- `RecoverFromError(err)` (errors.go).  `none` stands for a nil error.
A non-structured error is wrapped into the `"unknown error"` category
with generic guidance and the original error as cause; a structured
error is dispatched by category to a recovery function that rewrites
guidance only. -/
def RecoverFromError (env : FsEnv) : Option GoError → Option GoError
  | none => none
  | some e =>
    match asPrompter e with
    | none =>
      some (.prompterE .unknownError (errText e)
        (("Run \x27prompter --help\x27 for usage information.").toList) (some e))
    | some (c, m, g, cs) =>
      match c with
      | .configurationInvalid => some (recoverFromConfigError env c m g cs)
      | .templateNotFound => some (recoverFromTemplateError c m g cs)
      | .outputFailed => some (recoverFromOutputError c m g cs)
      | _ => some (.prompterE c m g cs)

/-- `IsRecoverableError(err)` (errors.go). -/
def IsRecoverableError (e : GoError) : Bool :=
  match asPrompter e with
  | none => false
  | some (c, m, _, _) =>
    match c with
    | .templateNotFound => true
    | .outputFailed => containsSubstr m ("clipboard".toList)
    | _ => false

/-- `models.PromptRequest`, with the fields `CollectMissingInputs`
reads or writes. -/
structure PromptRequest where
  interactive : Bool := false
  fixMode : Bool := false
  basePrompt : Str := []
  preTemplate : Str := []
  postTemplate : Str := []
  files : List Str := []
  directory : Str := []
  target : Str := []
  editor : Str := []

/-- The observed outcomes of the terminal interactions of one
`CollectMissingInputs` run: each survey prompt's answer (or failure) and
the `os.Getwd` result consulted by the directory question. -/
structure SurveyOracle where
  baseInput : Except Str Str
  preChoice : Except Str Str
  postChoice : Except Str Str
  includeDir : Except Str Bool
  cwd : Except Str Str

/-- Sequencing of the prompt steps: stop at the first failing step,
otherwise thread the updated request; invocation logs accumulate. -/
def andThenStep (r : Except Str PromptRequest × List String)
    (f : PromptRequest → Except Str PromptRequest × List String) :
    Except Str PromptRequest × List String :=
  match r with
  | (.error e, log) => (.error e, log)
  | (.ok req, log) =>
    match f req with
    | (r2, log2) => (r2, log ++ log2)

/-- `promptForBasePrompt` guarded by prompter.go line 32: runs only when
the base prompt is missing and fix mode is off; on success stores the
trimmed answer. -/
def stepBasePrompt (o : SurveyOracle) (req : PromptRequest) :
    Except Str PromptRequest × List String :=
  if req.basePrompt = [] ∧ req.fixMode = false then
    match o.baseInput with
    | .error e => (.error (("failed to collect base prompt: ".toList) ++ e), ["basePrompt"])
    | .ok s => (.ok { req with basePrompt := trimSpace s }, ["basePrompt"])
  else (.ok req, [])

/-- `promptForPreTemplate` guarded by prompter.go line 39: runs only
when no pre-template is set and fix mode is off; a `"None"` choice
leaves the request untouched. -/
def stepPreTemplate (o : SurveyOracle) (req : PromptRequest) :
    Except Str PromptRequest × List String :=
  if req.preTemplate = [] ∧ req.fixMode = false then
    match o.preChoice with
    | .error e => (.error (("failed to collect pre-template: ".toList) ++ e), ["preTemplate"])
    | .ok sel =>
      (.ok (if sel = noneStr then req else { req with preTemplate := sel }), ["preTemplate"])
  else (.ok req, [])

/-- `promptForPostTemplate` guarded by prompter.go line 46. -/
def stepPostTemplate (o : SurveyOracle) (req : PromptRequest) :
    Except Str PromptRequest × List String :=
  if req.postTemplate = [] ∧ req.fixMode = false then
    match o.postChoice with
    | .error e => (.error (("failed to collect post-template: ".toList) ++ e), ["postTemplate"])
    | .ok sel =>
      (.ok (if sel = noneStr then req else { req with postTemplate := sel }), ["postTemplate"])
  else (.ok req, [])

/-- `promptForDirectoryInclusion` guarded by prompter.go line 53: runs
only when neither a directory nor files are set and fix mode is off;
a yes answer stores the working directory (whose lookup can fail). -/
def stepDirectory (o : SurveyOracle) (req : PromptRequest) :
    Except Str PromptRequest × List String :=
  if req.directory = [] ∧ req.files = [] ∧ req.fixMode = false then
    match o.includeDir with
    | .error e =>
      (.error (("failed to collect directory inclusion: ".toList) ++ e), ["directory"])
    | .ok true =>
      match o.cwd with
      | .error e =>
        (.error (("failed to collect directory inclusion: failed to get current directory: ".toList) ++ e),
          ["directory"])
      | .ok c => (.ok { req with directory := c }, ["directory"])
    | .ok false => (.ok req, ["directory"])
  else (.ok req, [])

/-- `showConfirmationSummary` (prompter.go lines 165-168): the
confirmation prompt is skipped entirely and `nil` is returned. -/
def showConfirmationSummary (_req : PromptRequest) : Except Str Unit :=
  .ok ()

/-- `CollectMissingInputs` (prompter.go lines 26-65).  Returns the final
request (or the first error) and, as instrumentation, the ordered list
of prompt steps that were invoked. -/
def CollectMissingInputs (req : PromptRequest) (o : SurveyOracle) :
    Except Str PromptRequest × List String :=
  if req.interactive = false then (.ok req, [])
  else
    andThenStep
      (andThenStep
        (andThenStep
          (andThenStep (stepBasePrompt o req) (stepPreTemplate o))
          (stepPostTemplate o))
        (stepDirectory o))
      (fun r =>
        match showConfirmationSummary r with
        | .ok _ => (.ok r, [])
        | .error e => (.error (("user cancelled operation: ".toList) ++ e), []))

/-- All terminal interactions of an oracle succeed. -/
def oracleOk (o : SurveyOracle) : Prop :=
  o.baseInput.isOk = true ∧ o.preChoice.isOk = true ∧ o.postChoice.isOk = true
    ∧ o.includeDir.isOk = true ∧ o.cwd.isOk = true

/-- The lookup names a template file offers, per spec 4.2: its exact
stem and, for a file carrying the default marker, also the derived
display name.  Only template-suffix files are considered. -/
def candidateNames (fileName : Str) : List Str :=
  if listEndsWith fileName mdExt then
    let stem := trimSuffixL fileName mdExt
    match classifyStem stem with
    | some d => [stem, d]
    | none => [stem]
  else []

/-- Case-insensitive match of a requested name against a file's
candidate names. -/
def fileMatches (name fileName : Str) : Bool :=
  (candidateNames fileName).any fun c => toLowerStr c = toLowerStr name

/-- The outcome of a template lookup. -/
inductive LoadResult where
  | direct (path : Str)
  | found (subdir : String) (fileName : Str)
  | notFound
deriving DecidableEq

/-- An absolute path (`filepath.IsAbs` on Unix). -/
def isAbsPath (s : Str) : Bool :=
  listStartsWith s ("/".toList)

/-- Modelled from the spec: `LoadTemplate(name)` of the template
`Processor` (its implementation is not under src/, only its tests).
Per spec 4.2: an absolute path is loaded directly; otherwise the `pre`
then `post` listings are searched case-insensitively against each
file's candidate names, first match wins, and no match is a not-found
error. -/
def LoadTemplate (name : Str) (preFiles postFiles : List Str) : LoadResult :=
  if isAbsPath name then .direct name
  else
    match preFiles.find? (fun f => fileMatches name f) with
    | some f => .found "pre" f
    | none =>
      match postFiles.find? (fun f => fileMatches name f) with
      | some f => .found "post" f
      | none => .notFound

/-! ## Helper lemmas -/

theorem listStartsWith_append (p s : Str) : listStartsWith (p ++ s) p = true := by
  induction p with
  | nil => cases s <;> rfl
  | cons c cs ih => simp [listStartsWith, ih]

/-! ## Claim theorems -/

/-- Claim C1: for the directory whose files are exactly
`example.default.md`, `another.default.template.md`, `regular1.md`,
`regular2.md` (listed in `os.ReadDir` sorted order), `findTemplates`
lists the default display names (`another.template`, `example`, with
the `.default` marker removed) before the regular ones (`regular1`,
`regular2`), and `buildOptionsWithNone` inserts the `"None"` sentinel
immediately after the last default entry and before the first regular
entry, returning exactly
`["another.template", "example", "None", "regular1", "regular2"]`. -/
theorem findTemplates_buildOptions_c1 :
    classifyStem ("another.default.template".toList) = some ("another.template".toList)
    ∧ classifyStem ("example.default".toList) = some ("example".toList)
    ∧ classifyStem ("regular1".toList) = none
    ∧ classifyStem ("regular2".toList) = none
    ∧ findTemplates entriesC1 =
        ["another.template".toList, "example".toList,
         "regular1".toList, "regular2".toList]
    ∧ buildOptionsWithNone (findTemplates entriesC1) (some entriesC1) =
        ["another.template".toList, "example".toList, "None".toList,
         "regular1".toList, "regular2".toList] := by
  decide

/-- Claim C7: for every string `s` and every `maxLen ≥ 3`,
`truncateString s maxLen` is defined (no out-of-range slice), its
result's length is at most `maxLen`, it equals `s` exactly when
`len(s) ≤ maxLen`, and otherwise it is the first `maxLen - 3`
characters of `s` followed by `"..."`. -/
theorem truncateString_spec (s : Str) (maxLen : Int) (h : 3 ≤ maxLen) :
    ∃ r, truncateString s maxLen = some r
      ∧ (r.length : Int) ≤ maxLen
      ∧ (r = s ↔ (s.length : Int) ≤ maxLen)
      ∧ (maxLen < (s.length : Int) → r = s.take (maxLen - 3).toNat ++ ellipsisStr) := by
  by_cases hle : (s.length : Int) ≤ maxLen
  · refine ⟨s, ?_, hle, ?_, ?_⟩
    · simp [truncateString, hle]
    · simp [hle]
    · intro hgt; omega
  · push_neg at hle
    have h1 : 0 ≤ maxLen - 3 := by omega
    have h2 : maxLen - 3 ≤ (s.length : Int) := by omega
    have hk : ((maxLen - 3).toNat : Int) = maxLen - 3 := Int.toNat_of_nonneg h1
    have hkle : (maxLen - 3).toNat ≤ s.length := by omega
    have he : ellipsisStr.length = 3 := rfl
    have hlen : (s.take (maxLen - 3).toNat ++ ellipsisStr).length = (maxLen - 3).toNat + 3 := by
      simp [List.length_append, List.length_take, he]
      omega
    refine ⟨s.take (maxLen - 3).toNat ++ ellipsisStr, ?_, ?_, ?_, fun _ => rfl⟩
    · unfold truncateString
      rw [if_neg (by omega), if_pos ⟨h1, h2⟩]
    · rw [hlen]; omega
    · constructor
      · intro hr
        have := congrArg List.length hr
        rw [hlen] at this
        omega
      · intro hc; omega

/-- Claim C2 (spec-modelled): `Resolve()` merges the four layers in
ascending precedence for every configuration key — an explicitly-set
flag value overrides an environment value, which overrides a file
value, which overrides the built-in default, and a key not set at a
higher layer keeps the next lower layer's value. -/
theorem Resolve_precedence (flags env file : Overlay) (k : ConfigKey) :
    (∀ v, flags k = some v → Resolve flags env file k = v)
    ∧ (flags k = none → ∀ v, env k = some v → Resolve flags env file k = v)
    ∧ (flags k = none → env k = none → ∀ v, file k = some v →
        Resolve flags env file k = v)
    ∧ (flags k = none → env k = none → file k = none →
        Resolve flags env file k = defaultLayer k) := by
  refine ⟨?_, ?_, ?_, ?_⟩ <;> intros <;> simp_all [Resolve]

/-- Witness for C2: with only the flag layer setting the editor, the
resolved editor is the flag value. -/
theorem Resolve_precedence_witness :
    Resolve (fun _ => some (ConfigVal.s ("vim".toList))) (fun _ => none)
      (fun _ => none) ConfigKey.editor = ConfigVal.s ("vim".toList) :=
  (Resolve_precedence _ _ _ ConfigKey.editor).1 _ rfl

/-- Claim C3 (spec-modelled): `Validate` rejects a nil config, any
negative size limit, any directory strategy outside {git, filesystem},
and any target outside {clipboard, stdout} without a `file:` prefix;
it accepts `file:<suffix>` targets for every suffix and a well-formed
git/clipboard config. -/
theorem Validate_spec :
    (Validate none).isSome = true
    ∧ (∀ c : Config, c.maxFileSizeBytes < 0 → (Validate (some c)).isSome = true)
    ∧ (∀ c : Config, c.maxTotalBytes < 0 → (Validate (some c)).isSome = true)
    ∧ (∀ c : Config,
        ¬(c.directoryStrategy = "git".toList ∨ c.directoryStrategy = "filesystem".toList) →
        (Validate (some c)).isSome = true)
    ∧ (∀ c : Config, ¬(c.target = "clipboard".toList ∨ c.target = "stdout".toList) →
        listStartsWith c.target ("file:".toList) = false →
        (Validate (some c)).isSome = true)
    ∧ (∀ (c : Config) (suffix : Str), 0 ≤ c.maxFileSizeBytes → 0 ≤ c.maxTotalBytes →
        (c.directoryStrategy = "git".toList ∨ c.directoryStrategy = "filesystem".toList) →
        c.target = ("file:".toList) ++ suffix →
        Validate (some c) = none)
    ∧ Validate (some { promptsLocation := "/tmp/prompts".toList,
                       maxFileSizeBytes := 65536, maxTotalBytes := 262144,
                       directoryStrategy := "git".toList,
                       target := "clipboard".toList }) = none := by
  refine ⟨rfl, ?_, ?_, ?_, ?_, ?_, by decide⟩
  · intro c h
    unfold Validate
    dsimp only
    simp [h]
  · intro c h
    unfold Validate
    dsimp only
    split_ifs <;> simp_all
  · intro c h
    unfold Validate
    dsimp only
    split_ifs <;> simp_all
  · intro c h1 h2
    unfold Validate
    dsimp only
    split_ifs <;> simp_all
  · intro c suffix h1 h2 h3 h4
    have hsw : listStartsWith c.target ("file:".toList) = true := by
      rw [h4]; exact listStartsWith_append _ _
    have g1 : ¬(c.maxFileSizeBytes < 0) := by omega
    have g2 : ¬(c.maxTotalBytes < 0) := by omega
    unfold Validate
    dsimp only
    rcases h3 with h3 | h3 <;> simp [g1, g2, h3] <;> intro _ _ <;> exact hsw

/-- Witness for C3: a config whose target is `file:/tmp/output.txt` is
accepted. -/
theorem Validate_spec_witness :
    Validate (some { promptsLocation := "/tmp/prompts".toList,
                     maxFileSizeBytes := 65536, maxTotalBytes := 262144,
                     directoryStrategy := "git".toList,
                     target := "file:/tmp/output.txt".toList }) = none :=
  Validate_spec.2.2.2.2.2.1 _ ("/tmp/output.txt".toList)
    (by decide) (by decide) (Or.inl rfl) (by decide)

/-- Claim C4: `IsRecoverableError e` is true exactly when the
structured error `errors.As` extracts from `e` (that is, `e` itself or
the first structured error `e` wraps) has category template-not-found,
or has category output-failed with a message containing `"clipboard"`;
it is false for every other category and for every non-structured
error (where no structured error is extracted). -/
theorem IsRecoverableError_iff (e : GoError) :
    IsRecoverableError e = true ↔
      ∃ m g cs,
        asPrompter e = some (ErrCategory.templateNotFound, m, g, cs)
        ∨ (asPrompter e = some (ErrCategory.outputFailed, m, g, cs)
            ∧ containsSubstr m ("clipboard".toList) = true) := by
  unfold IsRecoverableError
  cases hap : asPrompter e with
  | none => simp
  | some val =>
    obtain ⟨c, m, g, cs⟩ := val
    cases c <;> simp

/-- Claim C5: for every non-nil error, `RecoverFromError` returns a
non-nil error; a non-structured error is wrapped into the generic
unknown category with generic guidance and the original error as
cause; for a structured error the result keeps the extracted error's
category, message and cause, rewriting at most the guidance. -/
theorem RecoverFromError_spec (env : FsEnv) (e : GoError) :
    RecoverFromError env (some e) ≠ none
    ∧ (asPrompter e = none →
        RecoverFromError env (some e) =
          some (.prompterE .unknownError (errText e)
            (("Run \x27prompter --help\x27 for usage information.").toList) (some e)))
    ∧ (∀ c m g cs, asPrompter e = some (c, m, g, cs) →
        ∃ g2, RecoverFromError env (some e) = some (.prompterE c m g2 cs)) := by
  refine ⟨?_, ?_, ?_⟩
  · unfold RecoverFromError
    dsimp only
    cases hap : asPrompter e with
    | none => simp [hap]
    | some val =>
      obtain ⟨c, m, g, cs⟩ := val
      cases c <;> simp
  · intro h
    unfold RecoverFromError
    dsimp only
    rw [h]
  · intro c m g cs h
    unfold RecoverFromError
    dsimp only
    rw [h]
    cases c <;> exact ⟨_, rfl⟩

/-- Witness for C5: recovering a structured configuration error keeps
its category, message and cause. -/
theorem RecoverFromError_spec_witness :
    ∃ g2, RecoverFromError ⟨true, true, true⟩
        (some (GoError.prompterE .configurationInvalid ("boom".toList) ("g".toList) none)) =
      some (GoError.prompterE .configurationInvalid ("boom".toList) g2 none) :=
  (RecoverFromError_spec ⟨true, true, true⟩
    (GoError.prompterE .configurationInvalid ("boom".toList) ("g".toList) none)).2.2
    _ _ _ _ rfl

/-- Counterexample for claim C6: the claim says every constructor's
guidance is chosen by pattern-matching the cause's text, but
`NewConfigurationError` matches its message argument instead — two
constructions with the same cause (hence the same cause text) and the
same category produce different guidance. -/
theorem NewConfigurationError_guidance_not_from_cause :
    causeOf (NewConfigurationError ("permission denied".toList)
        (some (GoError.basic ("io failure".toList))))
      = causeOf (NewConfigurationError ("bad option".toList)
        (some (GoError.basic ("io failure".toList))))
    ∧ guidanceOf (NewConfigurationError ("permission denied".toList)
        (some (GoError.basic ("io failure".toList))))
      ≠ guidanceOf (NewConfigurationError ("bad option".toList)
        (some (GoError.basic ("io failure".toList)))) := by
  exact ⟨rfl, by decide⟩

/-- Claim C6 as amended: each constructor's guidance is chosen by
first-match-wins pattern rules with a generic see-help fallback, but
the matched text is category-specific: the template, content-collection
and fix-mode constructors match the cause's text; the configuration
constructor matches its message argument; the output constructor
matches the target (clipboard equality, `file:` prefix) and only its
editor rule matches the cause's text; the validation constructor
selects by exact field name and stores no cause. -/
theorem errorConstructors_guidance_spec :
    (∀ m cs, containsSubstr m ("permission".toList) = true →
      guidanceOf (NewConfigurationError m cs) =
        ("Check file permissions for your configuration directory. Run \x27prompter --help\x27 for more information.").toList)
    ∧ (∀ m cs, containsSubstr m ("permission".toList) = false →
        (containsSubstr m ("not found".toList) = true ∨ containsSubstr m ("does not exist".toList) = true) →
        guidanceOf (NewConfigurationError m cs) =
          ("Configuration file not found. Run \x27prompter --help\x27 to see default locations and options.").toList)
    ∧ (∀ m cs, containsSubstr m ("permission".toList) = false →
        containsSubstr m ("not found".toList) = false →
        containsSubstr m ("does not exist".toList) = false →
        guidanceOf (NewConfigurationError m cs) =
          ("Run \x27prompter --help\x27 for usage information and configuration options.").toList)
    ∧ (∀ n c, containsSubstr (errText c) ("not found".toList) = true →
        guidanceOf (NewTemplateError n c) =
          ("Template \x27".toList) ++ n
            ++ ("\x27 not found. Run \x27prompter --help\x27 for template setup.").toList)
    ∧ (∀ n c, containsSubstr (errText c) ("not found".toList) = false →
        (containsSubstr (errText c) ("parse".toList) = true
          ∨ containsSubstr (errText c) ("syntax".toList) = true) →
        guidanceOf (NewTemplateError n c) =
          ("Template \x27".toList) ++ n
            ++ ("\x27 has syntax errors. Run \x27prompter --help\x27 for template format.").toList)
    ∧ (∀ n c, containsSubstr (errText c) ("not found".toList) = false →
        containsSubstr (errText c) ("parse".toList) = false →
        containsSubstr (errText c) ("syntax".toList) = false →
        guidanceOf (NewTemplateError n c) =
          ("Run \x27prompter --help\x27 for template usage and configuration.").toList)
    ∧ (∀ p c, containsSubstr (errText c) ("permission".toList) = true →
        guidanceOf (NewContentCollectionError p c) =
          ("Permission denied accessing \x27".toList) ++ p
            ++ ("\x27. Run \x27prompter --help\x27 for usage.").toList)
    ∧ (∀ p c, containsSubstr (errText c) ("permission".toList) = false →
        (containsSubstr (errText c) ("not found".toList) = true
          ∨ containsSubstr (errText c) ("does not exist".toList) = true) →
        guidanceOf (NewContentCollectionError p c) =
          ("Path \x27".toList) ++ p ++ ("\x27 not found. Run \x27prompter --help\x27 for usage.").toList)
    ∧ (∀ p c, containsSubstr (errText c) ("permission".toList) = false →
        containsSubstr (errText c) ("not found".toList) = false →
        containsSubstr (errText c) ("does not exist".toList) = false →
        guidanceOf (NewContentCollectionError p c) =
          ("Run \x27prompter --help\x27 for file and directory usage options.").toList)
    ∧ (∀ f c, (containsSubstr (errText c) ("not found".toList) = true
          ∨ containsSubstr (errText c) ("does not exist".toList) = true) →
        guidanceOf (NewFixModeError f c) =
          ("Fix file not found. Run \x27prompter --help\x27 for fix mode setup.").toList)
    ∧ (∀ f c, containsSubstr (errText c) ("not found".toList) = false →
        containsSubstr (errText c) ("does not exist".toList) = false →
        containsSubstr (errText c) ("empty".toList) = true →
        guidanceOf (NewFixModeError f c) =
          ("Fix file is empty. Run \x27prompter --help\x27 for fix mode usage.").toList)
    ∧ (∀ f c, containsSubstr (errText c) ("not found".toList) = false →
        containsSubstr (errText c) ("does not exist".toList) = false →
        containsSubstr (errText c) ("empty".toList) = false →
        guidanceOf (NewFixModeError f c) =
          ("Run \x27prompter --help\x27 for fix mode usage and examples.").toList)
    ∧ (∀ c, guidanceOf (NewOutputError ("clipboard".toList) c) =
        ("Clipboard access failed. Try --target stdout or run \x27prompter --help\x27 for options.").toList)
    ∧ (∀ t c, t ≠ "clipboard".toList → listStartsWith t ("file:".toList) = true →
        guidanceOf (NewOutputError t c) =
          ("File write failed. Run \x27prompter --help\x27 for output options.").toList)
    ∧ (∀ t c, t ≠ "clipboard".toList → listStartsWith t ("file:".toList) = false →
        containsSubstr (errText c) ("editor".toList) = true →
        guidanceOf (NewOutputError t c) =
          ("Editor launch failed. Run \x27prompter --help\x27 for editor configuration.").toList)
    ∧ (∀ t c, t ≠ "clipboard".toList → listStartsWith t ("file:".toList) = false →
        containsSubstr (errText c) ("editor".toList) = false →
        guidanceOf (NewOutputError t c) =
          ("Run \x27prompter --help\x27 for output target options.").toList)
    ∧ (∀ v r, guidanceOf (NewValidationError ("base_prompt".toList) v r) =
        ("Base prompt required in non-interactive mode. Run \x27prompter --help\x27 for options.").toList)
    ∧ (∀ v r, guidanceOf (NewValidationError ("target".toList) v r) =
        ("Invalid target. Run \x27prompter --help\x27 for valid output targets.").toList)
    ∧ (∀ fd v r, fd ≠ "base_prompt".toList → fd ≠ "target".toList →
        fd ≠ "config_path".toList → fd ≠ "template_name".toList →
        guidanceOf (NewValidationError fd v r) =
          ("Run \x27prompter --help\x27 for usage information.").toList)
    ∧ (∀ fd v r, causeOf (NewValidationError fd v r) = none) := by
  refine ⟨?_, ?_, ?_, ?_, ?_, ?_, ?_, ?_, ?_, ?_, ?_, ?_, ?_, ?_, ?_, ?_, ?_, ?_, ?_, ?_⟩
  · intro m cs h
    simp_all [NewConfigurationError, guidanceOf, configErrGuidance, h]
  · intro m cs h1 h2
    rcases h2 with h2 | h2 <;> simp_all [NewConfigurationError, guidanceOf, configErrGuidance, h1, h2]
  · intro m cs h1 h2 h3
    simp_all [NewConfigurationError, guidanceOf, configErrGuidance, h1, h2, h3]
  · intro n c h
    simp_all [NewTemplateError, guidanceOf, templateErrGuidance, h]
  · intro n c h1 h2
    rcases h2 with h2 | h2 <;> simp_all [NewTemplateError, guidanceOf, templateErrGuidance, h1, h2]
  · intro n c h1 h2 h3
    simp_all [NewTemplateError, guidanceOf, templateErrGuidance, h1, h2, h3]
  · intro p c h
    simp_all [NewContentCollectionError, guidanceOf, contentErrGuidance, h]
  · intro p c h1 h2
    rcases h2 with h2 | h2 <;> simp_all [NewContentCollectionError, guidanceOf, contentErrGuidance, h1, h2]
  · intro p c h1 h2 h3
    simp_all [NewContentCollectionError, guidanceOf, contentErrGuidance, h1, h2, h3]
  · intro f c h
    rcases h with h | h <;> simp_all [NewFixModeError, guidanceOf, fixModeErrGuidance, h]
  · intro f c h1 h2 h3
    simp_all [NewFixModeError, guidanceOf, fixModeErrGuidance, h1, h2, h3]
  · intro f c h1 h2 h3
    simp_all [NewFixModeError, guidanceOf, fixModeErrGuidance, h1, h2, h3]
  · intro c
    simp_all [NewOutputError, guidanceOf, outputErrGuidance]
  · intro t c h1 h2
    simp_all [NewOutputError, guidanceOf, outputErrGuidance, h1, h2]
  · intro t c h1 h2 h3
    simp_all [NewOutputError, guidanceOf, outputErrGuidance, h1, h2, h3]
  · intro t c h1 h2 h3
    simp_all [NewOutputError, guidanceOf, outputErrGuidance, h1, h2, h3]
  · intro v r
    simp_all [NewValidationError, guidanceOf, validationErrGuidance]
  · intro v r
    simp_all [NewValidationError, guidanceOf, validationErrGuidance]
  · intro fd v r h1 h2 h3 h4
    simp_all [NewValidationError, guidanceOf, validationErrGuidance, h1, h2, h3, h4]
  · intro fd v r
    rfl

/-- Witness for the amended C6: a configuration message mentioning
permissions selects the permission guidance. -/
theorem errorConstructors_guidance_spec_witness :
    guidanceOf (NewConfigurationError ("permission denied".toList) none) =
      ("Check file permissions for your configuration directory. Run \x27prompter --help\x27 for more information.").toList :=
  errorConstructors_guidance_spec.1 ("permission denied".toList) none (by decide)

/-- Witness for C7: truncating an 8-character string to 5 characters. -/
theorem truncateString_spec_witness :
    ∃ r, truncateString ("abcdefgh".toList) 5 = some r
      ∧ (r.length : Int) ≤ 5
      ∧ (r = "abcdefgh".toList ↔ ((("abcdefgh".toList).length : Int) ≤ 5))
      ∧ (5 < (("abcdefgh".toList).length : Int) →
          r = ("abcdefgh".toList).take ((5 : Int) - 3).toNat ++ ellipsisStr) :=
  truncateString_spec ("abcdefgh".toList) 5 (by norm_num)

/-- Claim C8 (spec-modelled): `LoadTemplate` loads an absolute path
directly; otherwise it searches the `pre` then `post` listings
case-insensitively against each file's exact stem and (for
default-marked files) the derived display name — so `"STRICT"` matches
`strict.default.md`, and both `"example"` and `"example.default"`
match `example.default.md`; the first match wins and no match yields a
not-found error. -/
theorem LoadTemplate_spec :
    (∀ (name : Str) (pre post : List Str), isAbsPath name = true →
      LoadTemplate name pre post = .direct name)
    ∧ LoadTemplate ("STRICT".toList) ["strict.default.md".toList] []
        = .found "pre" ("strict.default.md".toList)
    ∧ LoadTemplate ("example".toList) ["example.default.md".toList] []
        = .found "pre" ("example.default.md".toList)
    ∧ LoadTemplate ("example.default".toList) ["example.default.md".toList] []
        = .found "pre" ("example.default.md".toList)
    ∧ (∀ (name f : Str) (rest post : List Str), isAbsPath name = false →
        fileMatches name f = true →
        LoadTemplate name (f :: rest) post = .found "pre" f)
    ∧ (∀ (name : Str) (pre post : List Str), isAbsPath name = false →
        (∀ f ∈ pre, fileMatches name f = false) →
        (∀ f ∈ post, fileMatches name f = false) →
        LoadTemplate name pre post = .notFound) := by
  refine ⟨?_, by decide, by decide, by decide, ?_, ?_⟩
  · intro name pre post h
    simp [LoadTemplate, h]
  · intro name f rest post h1 h2
    simp [LoadTemplate, h1, List.find?, h2]
  · intro name pre post h1 h2 h3
    have e1 : pre.find? (fun f => fileMatches name f) = none := by
      rw [List.find?_eq_none]
      intro x hx
      simp [h2 x hx]
    have e2 : post.find? (fun f => fileMatches name f) = none := by
      rw [List.find?_eq_none]
      intro x hx
      simp [h3 x hx]
    simp [LoadTemplate, h1, e1, e2]

/-- Witness for C8: an absolute path is loaded directly. -/
theorem LoadTemplate_spec_witness :
    LoadTemplate ("/home/u/t.md".toList) [] [] = .direct ("/home/u/t.md".toList) :=
  LoadTemplate_spec.1 ("/home/u/t.md".toList) [] [] (by decide)

theorem stepBasePrompt_ok (o : SurveyOracle) (req : PromptRequest)
    (h : o.baseInput.isOk = true) :
    ∃ r l, stepBasePrompt o req = (Except.ok r, l) := by
  unfold stepBasePrompt
  by_cases hg : req.basePrompt = [] ∧ req.fixMode = false
  · rw [if_pos hg]
    cases hb : o.baseInput with
    | error e => rw [hb] at h; simp [Except.isOk, Except.toBool] at h
    | ok s => exact ⟨_, _, rfl⟩
  · rw [if_neg hg]; exact ⟨req, [], rfl⟩

theorem stepPreTemplate_ok (o : SurveyOracle) (req : PromptRequest)
    (h : o.preChoice.isOk = true) :
    ∃ r l, stepPreTemplate o req = (Except.ok r, l) := by
  unfold stepPreTemplate
  by_cases hg : req.preTemplate = [] ∧ req.fixMode = false
  · rw [if_pos hg]
    cases hb : o.preChoice with
    | error e => rw [hb] at h; simp [Except.isOk, Except.toBool] at h
    | ok s => exact ⟨_, _, rfl⟩
  · rw [if_neg hg]; exact ⟨req, [], rfl⟩

theorem stepPostTemplate_ok (o : SurveyOracle) (req : PromptRequest)
    (h : o.postChoice.isOk = true) :
    ∃ r l, stepPostTemplate o req = (Except.ok r, l) := by
  unfold stepPostTemplate
  by_cases hg : req.postTemplate = [] ∧ req.fixMode = false
  · rw [if_pos hg]
    cases hb : o.postChoice with
    | error e => rw [hb] at h; simp [Except.isOk, Except.toBool] at h
    | ok s => exact ⟨_, _, rfl⟩
  · rw [if_neg hg]; exact ⟨req, [], rfl⟩

theorem stepDirectory_ok (o : SurveyOracle) (req : PromptRequest)
    (h : o.includeDir.isOk = true) (hc : o.cwd.isOk = true) :
    ∃ r l, stepDirectory o req = (Except.ok r, l) := by
  unfold stepDirectory
  by_cases hg : req.directory = [] ∧ req.files = [] ∧ req.fixMode = false
  · rw [if_pos hg]
    cases hb : o.includeDir with
    | error e => rw [hb] at h; simp [Except.isOk, Except.toBool] at h
    | ok b =>
      cases b with
      | false => exact ⟨_, _, rfl⟩
      | true =>
        cases hw : o.cwd with
        | error e => rw [hw] at hc; simp [Except.isOk, Except.toBool] at hc
        | ok c => exact ⟨_, _, rfl⟩
  · rw [if_neg hg]; exact ⟨req, [], rfl⟩

/-- Claim C9: `showConfirmationSummary` returns nil for every request
(it is a no-op), so the interactive flow is never cancelled at the
confirmation-summary step: whenever every preceding input-collection
interaction succeeds, `CollectMissingInputs` returns nil. -/
theorem collectMissingInputs_never_cancelled :
    (∀ req, showConfirmationSummary req = Except.ok ())
    ∧ (∀ (req : PromptRequest) (o : SurveyOracle), oracleOk o →
        ∃ req2, (CollectMissingInputs req o).1 = Except.ok req2) := by
  refine ⟨fun _ => rfl, ?_⟩
  intro req o ho
  obtain ⟨h1, h2, h3, h4, h5⟩ := ho
  unfold CollectMissingInputs
  by_cases hi : req.interactive = false
  · rw [if_pos hi]; exact ⟨req, rfl⟩
  · rw [if_neg hi]
    obtain ⟨r1, l1, e1⟩ := stepBasePrompt_ok o req h1
    obtain ⟨r2, l2, e2⟩ := stepPreTemplate_ok o r1 h2
    obtain ⟨r3, l3, e3⟩ := stepPostTemplate_ok o r2 h3
    obtain ⟨r4, l4, e4⟩ := stepDirectory_ok o r3 h4 h5
    exact ⟨r4, by simp [andThenStep, e1, e2, e3, e4, showConfirmationSummary]⟩

/-- Witness for C9: an all-successful set of interactions makes
`CollectMissingInputs` succeed. -/
theorem collectMissingInputs_never_cancelled_witness :
    ∃ req2, (CollectMissingInputs { interactive := true }
      { baseInput := Except.ok ("hello".toList), preChoice := Except.ok noneStr,
        postChoice := Except.ok noneStr, includeDir := Except.ok false,
        cwd := Except.ok ("/w".toList) }).1 = Except.ok req2 :=
  collectMissingInputs_never_cancelled.2 _ _ ⟨rfl, rfl, rfl, rfl, rfl⟩

/-- Claim C10: with `Interactive` and `FixMode` both set,
`CollectMissingInputs` returns nil without invoking any prompt
(empty invocation log) and leaves the request — in particular
`BasePrompt`, `PreTemplate`, `PostTemplate`, `Files`, `Directory` —
unchanged. -/
theorem CollectMissingInputs_fixMode (req : PromptRequest) (o : SurveyOracle)
    (hi : req.interactive = true) (hf : req.fixMode = true) :
    CollectMissingInputs req o = (Except.ok req, []) := by
  unfold CollectMissingInputs
  rw [if_neg (by simp [hi])]
  simp [stepBasePrompt, stepPreTemplate, stepPostTemplate, stepDirectory, hf,
    andThenStep, showConfirmationSummary]

/-- Witness for C10: fix mode skips every prompt even when every
interaction would fail. -/
theorem CollectMissingInputs_fixMode_witness :
    CollectMissingInputs { interactive := true, fixMode := true }
      { baseInput := Except.error ("boom".toList), preChoice := Except.error ("boom".toList),
        postChoice := Except.error ("boom".toList), includeDir := Except.error ("boom".toList),
        cwd := Except.error ("boom".toList) }
      = (Except.ok { interactive := true, fixMode := true }, []) :=
  CollectMissingInputs_fixMode _ _ rfl rfl

end Prmpt
